import Mathlib

/-!
Verification of the payment / ledger core of `hw1.py`.

Shallow embedding conventions:
* Python `float` balances and amounts are modelled as exact rationals (`ℚ`);
  the program only adds, subtracts and compares them.
* A `BankAccount` object is a record; methods that mutate the object are pure
  functions returning the updated record(s).
* A raised Python exception is an `Except.error`; the caller's view of the
  object is then the unchanged prior record.
* The account dictionary `dict[str, BankAccount]` is an association list with
  first-match lookup and in-place update.
* A history entry `f"send {amount} ... to-{id}"` / `f"reciev {amount} ... from-{id}"`
  is modelled structurally as `HistEntry.sent amount id` / `HistEntry.received amount id`,
  keeping exactly the information the formatted string carries
  (direction, amount, counterparty id).
-/

/-- Embeds `IVerifyCreditCard.is_valid_card_format`: `card_number.isdigit() and len(card_number) == 16`.
Python `str.isdigit` is true iff the string is nonempty and every character is a
digit; `len` counts characters. Both are phrased over the string's character
list. -/
def is_valid_card_format (card_number : String) : Bool :=
  (!card_number.data.isEmpty && card_number.data.all Char.isDigit)
    && card_number.data.length == 16

/-- Embeds `IVerifyPayPal.is_valid_email_format`: `"@" in email and "." in email`
(single-character substring membership). -/
def is_valid_email_format (email : String) : Bool :=
  email.data.contains '@' && email.data.contains '.'

/-- One side of a successful transfer, as recorded in an account's history list.
`sent a to` embeds the entry `f"send {a} ₪ to-{to}"`; `received a from` embeds
`f"reciev {a} ₪ from-{from}"`. -/
inductive HistEntry where
  | sent (amount : ℚ) (to_id : String)
  | received (amount : ℚ) (from_id : String)
deriving DecidableEq, Repr

/-- The state of a `BankAccount` object (`_id`, `_balance`, `_credit_card_number`,
`_paypal_email`, `_history`). -/
structure BankAccount where
  id : String
  balance : ℚ
  credit_card_number : Option String
  paypal_email : Option String
  history : List HistEntry
deriving DecidableEq, Repr

/-- Embeds `BankAccount.__init__`: stores the arguments unchecked and starts an empty history. -/
def BankAccount.init (id : String) (balance : ℚ)
    (credit_card_number : Option String := none)
    (paypal_email : Option String := none) : BankAccount :=
  ⟨id, balance, credit_card_number, paypal_email, []⟩

/-- The `balance` property setter: raises `ValueError` on a negative value,
otherwise commits the new balance. -/
def BankAccount.set_balance (a : BankAccount) (value : ℚ) : Except String BankAccount :=
  if value < 0 then .error "balance cannot be negative"
  else .ok { a with balance := value }

/-- The `credit_card_number` property setter: raises `ValueError` unless the
card format check passes, otherwise commits the new number. -/
def BankAccount.set_credit_card_number (a : BankAccount) (number : String) :
    Except String BankAccount :=
  if ¬ is_valid_card_format number then .error "Invalid credit card format"
  else .ok { a with credit_card_number := some number }

/-- The `paypal_email` property setter: raises `ValueError` unless the email
format check passes, otherwise commits the new email. -/
def BankAccount.set_paypal_email (a : BankAccount) (email : String) :
    Except String BankAccount :=
  if ¬ is_valid_email_format email then .error "Invalid email format"
  else .ok { a with paypal_email := some email }

/-- Embeds `BankAccount.transfer(self, amount, to_account)`: returns the boolean result
together with the post-call states of `self` and `to_account`. -/
def BankAccount.transfer (self : BankAccount) (amount : ℚ) (to_account : BankAccount) :
    Bool × BankAccount × BankAccount :=
  if self.id = to_account.id then
    (false, self, to_account)
  else if self.balance ≥ amount then
    (true,
      { self with balance := self.balance - amount,
                  history := self.history ++ [HistEntry.sent amount to_account.id] },
      { to_account with balance := to_account.balance + amount,
                        history := to_account.history ++ [HistEntry.received amount self.id] })
  else
    (false, self, to_account)

/-- Embeds `BankAccount.verify_credit_card`: equality of the supplied string with the
stored optional card number (`None == s` is `False` in Python). -/
def BankAccount.verify_credit_card (a : BankAccount) (card_number : String) : Bool :=
  a.credit_card_number == some card_number

/-- Embeds `BankAccount.verify_paypal_email`: equality of the supplied string with the
stored optional email. -/
def BankAccount.verify_paypal_email (a : BankAccount) (email : String) : Bool :=
  a.paypal_email == some email

/-- The account dictionary `dict[str, BankAccount]` of `process`, as an
association list keyed by identifier. -/
abbrev AccountMap := List (String × BankAccount)

/-- Embeds `accounts.get(key)`: first-match lookup, `None` when the key is absent. -/
def lookupAcc : AccountMap → String → Option BankAccount
  | [], _ => none
  | (k, v) :: rest, key => if k = key then some v else lookupAcc rest key

/-- In-place mutation of the account object stored under `key` (a Python
`transfer` mutates the objects the dictionary already holds). -/
def updateAcc : AccountMap → String → BankAccount → AccountMap
  | [], _, _ => []
  | (k, v) :: rest, key, newv =>
      if k = key then (k, newv) :: rest else (k, v) :: updateAcc rest key newv

/-- An uncaught Python exception escaping `process`. `attributeError` is the
`AttributeError` raised when a `None` returned by `accounts.get` is
dereferenced (directly, or inside `transfer` via `to_account._id`). -/
inductive PyError where
  | attributeError
deriving DecidableEq, Repr

/-- The state of a `CreditCardPayment` object (minus the class-level counter,
which is modelled separately). -/
structure CreditCardPayment where
  amount : ℚ
  from_account_id : String
  to_account_id : String
  card_number : String
deriving DecidableEq, Repr

/-- Embeds `CreditCardPayment.process(accounts)`: format check, then credential match
against the source account, then delegation to `transfer`. A `None` account
dereferenced on the taken path raises `AttributeError`; a successful path
returns the transfer result and the dictionary with both mutated objects. -/
def CreditCardPayment.process (p : CreditCardPayment) (accounts : AccountMap) :
    Except PyError (Bool × AccountMap) :=
  let from_acc := lookupAcc accounts p.from_account_id
  let to_acc := lookupAcc accounts p.to_account_id
  if ¬ is_valid_card_format p.card_number then .ok (false, accounts)
  else
    match from_acc with
    | none => .error .attributeError
    | some fa =>
      if ¬ fa.verify_credit_card p.card_number then .ok (false, accounts)
      else
        match to_acc with
        | none => .error .attributeError
        | some ta =>
          let r := fa.transfer p.amount ta
          .ok (r.1, updateAcc (updateAcc accounts p.from_account_id r.2.1) p.to_account_id r.2.2)

/-- The state of a `PayPalPayment` object (minus the class-level counter). -/
structure PayPalPayment where
  amount : ℚ
  from_account_id : String
  to_account_id : String
  email : String
deriving DecidableEq, Repr

/-- Embeds `PayPalPayment.process(accounts)`: same shape as the card channel, with the
email format rule and the stored email credential. -/
def PayPalPayment.process (p : PayPalPayment) (accounts : AccountMap) :
    Except PyError (Bool × AccountMap) :=
  let from_acc := lookupAcc accounts p.from_account_id
  let to_acc := lookupAcc accounts p.to_account_id
  if ¬ is_valid_email_format p.email then .ok (false, accounts)
  else
    match from_acc with
    | none => .error .attributeError
    | some fa =>
      if ¬ fa.verify_paypal_email p.email then .ok (false, accounts)
      else
        match to_acc with
        | none => .error .attributeError
        | some ta =>
          let r := fa.transfer p.amount ta
          .ok (r.1, updateAcc (updateAcc accounts p.from_account_id r.2.1) p.to_account_id r.2.2)

/-- Claim C1: `transfer(source, amount, destination)` returns `true` iff the two
accounts have different identifiers and `source.balance >= amount`; on the true
outcome it debits exactly `amount` from the source, credits exactly `amount` to
the destination, and appends one "sent" entry to the source's history and one
"received" entry to the destination's history. -/
theorem transfer_true_iff_and_effects (s : BankAccount) (a : ℚ) (d : BankAccount) :
    ((s.transfer a d).1 = true ↔ s.id ≠ d.id ∧ a ≤ s.balance)
    ∧ ((s.transfer a d).1 = true →
        (s.transfer a d).2.1.balance = s.balance - a
        ∧ (s.transfer a d).2.2.balance = d.balance + a
        ∧ (s.transfer a d).2.1.history = s.history ++ [HistEntry.sent a d.id]
        ∧ (s.transfer a d).2.2.history = d.history ++ [HistEntry.received a s.id]) := by
  unfold BankAccount.transfer
  by_cases h1 : s.id = d.id <;> by_cases h2 : s.balance ≥ a <;>
    simp [h1, h2, ge_iff_le]

/-- The two accounts of the sample ledger in `main`, used as concrete inputs. -/
def acctA : BankAccount := BankAccount.init "A001" 1000 (some "1234567890123456") (some "user1@example.com")

/-- The second sample account of `main`. -/
def acctB : BankAccount := BankAccount.init "A002" 500 (some "1111222233334444") (some "user2@example.com")

/-- Witness for C1: the successful 200 transfer from `acctA` to `acctB` leaves
the source at 800 and the destination at 700 with the matching history entries. -/
theorem transfer_true_iff_and_effects_witness :
    (acctA.transfer 200 acctB).1 = true
    ∧ (acctA.transfer 200 acctB).2.1.balance = acctA.balance - 200
    ∧ (acctA.transfer 200 acctB).2.2.balance = acctB.balance + 200
    ∧ (acctA.transfer 200 acctB).2.1.history = acctA.history ++ [HistEntry.sent 200 acctB.id]
    ∧ (acctA.transfer 200 acctB).2.2.history = acctB.history ++ [HistEntry.received 200 acctA.id] := by
  have h := transfer_true_iff_and_effects acctA 200 acctB
  have ht : (acctA.transfer 200 acctB).1 = true := by decide
  exact ⟨ht, h.2 ht⟩

/-- Claim C4: every `transfer` call that returns `false` (self-transfer or
insufficient funds) leaves both accounts — balances and histories included —
exactly unchanged. -/
theorem transfer_false_no_mutation (s : BankAccount) (a : ℚ) (d : BankAccount)
    (h : (s.transfer a d).1 = false) :
    (s.transfer a d).2.1 = s ∧ (s.transfer a d).2.2 = d := by
  unfold BankAccount.transfer at *
  split_ifs at * <;> simp_all

/-- Witness for C4: the insufficient-funds attempt to move 900 out of `acctB`
fails and leaves both account records untouched. -/
theorem transfer_false_no_mutation_witness :
    (acctB.transfer 900 acctA).1 = false
    ∧ (acctB.transfer 900 acctA).2.1 = acctB
    ∧ (acctB.transfer 900 acctA).2.2 = acctA := by
  have hf : (acctB.transfer 900 acctA).1 = false := by decide
  have h := transfer_false_no_mutation acctB 900 acctA hf
  exact ⟨hf, h⟩

/-- Claim C5: every successful transfer conserves the sum of the two balances. -/
theorem transfer_conserves_sum (s : BankAccount) (a : ℚ) (d : BankAccount)
    (h : (s.transfer a d).1 = true) :
    (s.transfer a d).2.1.balance + (s.transfer a d).2.2.balance = s.balance + d.balance := by
  unfold BankAccount.transfer at *
  split_ifs at * <;> simp_all

/-- Witness for C5: the successful 200 transfer from `acctA` to `acctB`
keeps the combined balance at 1500. -/
theorem transfer_conserves_sum_witness :
    (acctA.transfer 200 acctB).1 = true
    ∧ (acctA.transfer 200 acctB).2.1.balance + (acctA.transfer 200 acctB).2.2.balance
      = acctA.balance + acctB.balance := by
  have ht : (acctA.transfer 200 acctB).1 = true := by decide
  exact ⟨ht, transfer_conserves_sum acctA 200 acctB ht⟩

/-- Claim C9: a transfer of a negative amount `a` between accounts with distinct
identifiers passes the `source.balance >= amount` guard whenever the source
balance is at least `a`, returns `true`, increases the source balance by `|a|`
and decreases the destination balance by `|a|` — which can drive the
destination balance negative, as the concrete run in the last conjunct shows. -/
theorem transfer_negative_amount (s : BankAccount) (a : ℚ) (d : BankAccount)
    (hneg : a < 0) (hid : s.id ≠ d.id) (hbal : a ≤ s.balance) :
    (s.transfer a d).1 = true
    ∧ (s.transfer a d).2.1.balance = s.balance + |a|
    ∧ (s.transfer a d).2.2.balance = d.balance - |a|
    ∧ ((BankAccount.init "A" 0).transfer (-5) (BankAccount.init "B" 0)).2.2.balance < 0 := by
  have habs : |a| = -a := abs_of_neg hneg
  refine ⟨?_, ?_, ?_, by simp [BankAccount.transfer, BankAccount.init]⟩ <;>
    unfold BankAccount.transfer <;> simp [hid, ge_iff_le, hbal, habs] <;> ring

/-- Witness for C9: transferring -5 from an empty account A to an empty account B
succeeds, raises A to 5 and drops B to -5. -/
theorem transfer_negative_amount_witness :
    ((BankAccount.init "A" 0).transfer (-5) (BankAccount.init "B" 0)).1 = true
    ∧ ((BankAccount.init "A" 0).transfer (-5) (BankAccount.init "B" 0)).2.1.balance
      = (BankAccount.init "A" 0).balance + |(-5 : ℚ)|
    ∧ ((BankAccount.init "A" 0).transfer (-5) (BankAccount.init "B" 0)).2.2.balance
      = (BankAccount.init "B" 0).balance - |(-5 : ℚ)| := by
  have h := transfer_negative_amount (BankAccount.init "A" 0) (-5) (BankAccount.init "B" 0)
    (by norm_num) (by decide) (by decide)
  exact ⟨h.1, h.2.1, h.2.2.1⟩

/-- The sample ledger dictionary built in `main`. -/
def accounts0 : AccountMap := [("A001", acctA), ("A002", acctB)]

/-- Claim C3: for either channel, `process` returns `false` with the account
collection unchanged — never reaching `transfer` — when the supplied credential
fails the channel's static format rule; it returns `false` with no mutation
when the well-formed credential does not match the source account's stored
credential; and only when both checks pass does it delegate to `transfer`,
returning its boolean result unchanged (alongside the two written-back
accounts). -/
theorem process_validation_gate (p : CreditCardPayment) (q : PayPalPayment)
    (accounts : AccountMap) :
    (is_valid_card_format p.card_number = false →
      p.process accounts = .ok (false, accounts))
    ∧ (∀ fa, is_valid_card_format p.card_number = true →
        lookupAcc accounts p.from_account_id = some fa →
        fa.verify_credit_card p.card_number = false →
        p.process accounts = .ok (false, accounts))
    ∧ (∀ fa ta, is_valid_card_format p.card_number = true →
        lookupAcc accounts p.from_account_id = some fa →
        fa.verify_credit_card p.card_number = true →
        lookupAcc accounts p.to_account_id = some ta →
        p.process accounts =
          .ok ((fa.transfer p.amount ta).1,
            updateAcc (updateAcc accounts p.from_account_id (fa.transfer p.amount ta).2.1)
              p.to_account_id (fa.transfer p.amount ta).2.2))
    ∧ (is_valid_email_format q.email = false →
        q.process accounts = .ok (false, accounts))
    ∧ (∀ fa, is_valid_email_format q.email = true →
        lookupAcc accounts q.from_account_id = some fa →
        fa.verify_paypal_email q.email = false →
        q.process accounts = .ok (false, accounts))
    ∧ (∀ fa ta, is_valid_email_format q.email = true →
        lookupAcc accounts q.from_account_id = some fa →
        fa.verify_paypal_email q.email = true →
        lookupAcc accounts q.to_account_id = some ta →
        q.process accounts =
          .ok ((fa.transfer q.amount ta).1,
            updateAcc (updateAcc accounts q.from_account_id (fa.transfer q.amount ta).2.1)
              q.to_account_id (fa.transfer q.amount ta).2.2)) := by
  refine ⟨?_, ?_, ?_, ?_, ?_, ?_⟩
  · intro hfmt
    simp [CreditCardPayment.process, hfmt]
  · intro fa hfmt hfrom hver
    simp [CreditCardPayment.process, hfmt, hfrom, hver]
  · intro fa ta hfmt hfrom hver hto
    simp [CreditCardPayment.process, hfmt, hfrom, hver, hto]
  · intro hfmt
    simp [PayPalPayment.process, hfmt]
  · intro fa hfmt hfrom hver
    simp [PayPalPayment.process, hfmt, hfrom, hver]
  · intro fa ta hfmt hfrom hver hto
    simp [PayPalPayment.process, hfmt, hfrom, hver, hto]

/-- Witness for C3: the five `main` scenarios plus a matching wallet payment,
evaluated on the sample ledger. -/
theorem process_validation_gate_witness :
    (CreditCardPayment.mk 50 "A001" "A002" "invalid").process accounts0 = .ok (false, accounts0)
    ∧ (CreditCardPayment.mk 200 "A001" "A002" "1111222233334444").process accounts0
        = .ok (false, accounts0)
    ∧ (CreditCardPayment.mk 200 "A001" "A002" "1234567890123456").process accounts0
        = .ok ((acctA.transfer 200 acctB).1,
            updateAcc (updateAcc accounts0 "A001" (acctA.transfer 200 acctB).2.1)
              "A002" (acctA.transfer 200 acctB).2.2)
    ∧ (PayPalPayment.mk 50 "A001" "A002" "invalid").process accounts0 = .ok (false, accounts0)
    ∧ (PayPalPayment.mk 300 "A001" "A002" "wrong@example.com").process accounts0
        = .ok (false, accounts0)
    ∧ (PayPalPayment.mk 300 "A001" "A002" "user1@example.com").process accounts0
        = .ok ((acctA.transfer 300 acctB).1,
            updateAcc (updateAcc accounts0 "A001" (acctA.transfer 300 acctB).2.1)
              "A002" (acctA.transfer 300 acctB).2.2) := by
  have hdummy : PayPalPayment := PayPalPayment.mk 50 "A001" "A002" "invalid"
  have hcdummy : CreditCardPayment := CreditCardPayment.mk 50 "A001" "A002" "invalid"
  refine ⟨?_, ?_, ?_, ?_, ?_, ?_⟩
  · exact (process_validation_gate (CreditCardPayment.mk 50 "A001" "A002" "invalid")
      hdummy accounts0).1 (by decide)
  · exact (process_validation_gate (CreditCardPayment.mk 200 "A001" "A002" "1111222233334444")
      hdummy accounts0).2.1 acctA (by decide) (by decide) (by decide)
  · exact (process_validation_gate (CreditCardPayment.mk 200 "A001" "A002" "1234567890123456")
      hdummy accounts0).2.2.1 acctA acctB (by decide) (by decide) (by decide) (by decide)
  · exact (process_validation_gate hcdummy (PayPalPayment.mk 50 "A001" "A002" "invalid")
      accounts0).2.2.2.1 (by decide)
  · exact (process_validation_gate hcdummy (PayPalPayment.mk 300 "A001" "A002" "wrong@example.com")
      accounts0).2.2.2.2.1 acctA (by decide) (by decide) (by decide)
  · exact (process_validation_gate hcdummy (PayPalPayment.mk 300 "A001" "A002" "user1@example.com")
      accounts0).2.2.2.2.2 acctA acctB (by decide) (by decide) (by decide) (by decide)

/-- Counterexample for C6: a card payment whose source identifier is absent
from the collection, with a well-formed credential, does not signal a
`NotFound` condition — `accounts.get` returns `None` and the subsequent
`verify_credit_card` dereference raises an uncontrolled `AttributeError`
(the code contains no `NotFound` path at all). -/
theorem process_missing_account_counterexample :
    (CreditCardPayment.mk 100 "MISSING" "A002" "1234567890123456").process accounts0
      = .error .attributeError := by rfl

/-- Claim C6 (amended): a `process` call asked to resolve an identifier absent
from the collection does not signal `NotFound`: if the credential fails the
format check the call still returns `false` without mutation (the C3 theorem
covers that branch); otherwise the missing source — or, once both credential
checks pass, the missing destination — is dereferenced and an uncontrolled
`AttributeError` propagates. -/
theorem process_missing_account_raises (p : CreditCardPayment) (q : PayPalPayment)
    (accounts : AccountMap) :
    (is_valid_card_format p.card_number = true →
      lookupAcc accounts p.from_account_id = none →
      p.process accounts = .error .attributeError)
    ∧ (∀ fa, is_valid_card_format p.card_number = true →
        lookupAcc accounts p.from_account_id = some fa →
        fa.verify_credit_card p.card_number = true →
        lookupAcc accounts p.to_account_id = none →
        p.process accounts = .error .attributeError)
    ∧ (is_valid_email_format q.email = true →
        lookupAcc accounts q.from_account_id = none →
        q.process accounts = .error .attributeError)
    ∧ (∀ fa, is_valid_email_format q.email = true →
        lookupAcc accounts q.from_account_id = some fa →
        fa.verify_paypal_email q.email = true →
        lookupAcc accounts q.to_account_id = none →
        q.process accounts = .error .attributeError) := by
  refine ⟨?_, ?_, ?_, ?_⟩
  · intro hfmt hfrom
    simp [CreditCardPayment.process, hfmt, hfrom]
  · intro fa hfmt hfrom hver hto
    simp [CreditCardPayment.process, hfmt, hfrom, hver, hto]
  · intro hfmt hfrom
    simp [PayPalPayment.process, hfmt, hfrom]
  · intro fa hfmt hfrom hver hto
    simp [PayPalPayment.process, hfmt, hfrom, hver, hto]

/-- Witness for the amended C6: missing source and missing destination, on both
channels, each raise `AttributeError` on the sample ledger. -/
theorem process_missing_account_raises_witness :
    (CreditCardPayment.mk 100 "MISSING" "A002" "1234567890123456").process accounts0
      = .error .attributeError
    ∧ (CreditCardPayment.mk 100 "A001" "MISSING" "1234567890123456").process accounts0
      = .error .attributeError
    ∧ (PayPalPayment.mk 100 "MISSING" "A002" "user1@example.com").process accounts0
      = .error .attributeError
    ∧ (PayPalPayment.mk 100 "A001" "MISSING" "user1@example.com").process accounts0
      = .error .attributeError := by
  have hcdummy : CreditCardPayment := CreditCardPayment.mk 50 "A001" "A002" "invalid"
  have hdummy : PayPalPayment := PayPalPayment.mk 50 "A001" "A002" "invalid"
  refine ⟨?_, ?_, ?_, ?_⟩
  · exact (process_missing_account_raises
      (CreditCardPayment.mk 100 "MISSING" "A002" "1234567890123456") hdummy accounts0).1
      (by decide) (by decide)
  · exact (process_missing_account_raises
      (CreditCardPayment.mk 100 "A001" "MISSING" "1234567890123456") hdummy accounts0).2.1
      acctA (by decide) (by decide) (by decide) (by decide)
  · exact (process_missing_account_raises hcdummy
      (PayPalPayment.mk 100 "MISSING" "A002" "user1@example.com") accounts0).2.2.1
      (by decide) (by decide)
  · exact (process_missing_account_raises hcdummy
      (PayPalPayment.mk 100 "A001" "MISSING" "user1@example.com") accounts0).2.2.2
      acctA (by decide) (by decide) (by decide) (by decide)

/-- Embeds `Payment.get_total_payments`: reads the class-level counter. -/
def get_total_payments (total_payments : ℕ) : ℕ := total_payments

/-- The effect of `Payment.__init__` on the class-level counter:
`Payment._total_payments += 1`. The counter is class state, so it is threaded
explicitly; neither `process` implementation reads or writes it. -/
def Payment.init_count (total_payments : ℕ) : ℕ := total_payments + 1

/-- Embeds `CreditCardPayment.__init__`: builds the instance and runs the base-class
constructor on the counter. -/
def mkCreditCardPayment (amount : ℚ) (from_id to_id card_number : String)
    (total_payments : ℕ) : CreditCardPayment × ℕ :=
  (⟨amount, from_id, to_id, card_number⟩, Payment.init_count total_payments)

/-- Embeds `PayPalPayment.__init__`: builds the instance and runs the base-class
constructor on the counter. -/
def mkPayPalPayment (amount : ℚ) (from_id to_id email : String)
    (total_payments : ℕ) : PayPalPayment × ℕ :=
  (⟨amount, from_id, to_id, email⟩, Payment.init_count total_payments)

/-- The construction arguments of one payment request, either channel. -/
inductive PaymentSpec where
  | card (amount : ℚ) (from_id to_id card_number : String)
  | paypal (amount : ℚ) (from_id to_id email : String)
deriving DecidableEq, Repr

/-- Constructs a list of payment requests in order, threading the counter. -/
def constructAll : List PaymentSpec → ℕ → ℕ
  | [], c => c
  | .card a f t n :: rest, c => constructAll rest (mkCreditCardPayment a f t n c).2
  | .paypal a f t e :: rest, c => constructAll rest (mkPayPalPayment a f t e c).2

/-- Claim C7: constructing a payment request of either channel increases the
process-wide counter by exactly 1; `get_total_payments` reads it back
unchanged; and over any construction sequence the counter ends at its start
plus the number of requests constructed — it is never reset or decreased.
`process` takes no part in this: its embedding neither receives nor returns
the counter, matching the code, where only `Payment.__init__` touches
`_total_payments`. -/
theorem total_payments_counter :
    (∀ (a : ℚ) (f t n : String) (c : ℕ), (mkCreditCardPayment a f t n c).2 = c + 1)
    ∧ (∀ (a : ℚ) (f t e : String) (c : ℕ), (mkPayPalPayment a f t e c).2 = c + 1)
    ∧ (∀ c : ℕ, get_total_payments c = c)
    ∧ (∀ (specs : List PaymentSpec) (c : ℕ), constructAll specs c = c + specs.length) := by
  refine ⟨fun _ _ _ _ _ => rfl, fun _ _ _ _ _ => rfl, fun _ => rfl, ?_⟩
  intro specs
  induction specs with
  | nil => intro c; simp [constructAll]
  | cons s rest ih =>
    intro c
    cases s <;>
      simp [constructAll, mkCreditCardPayment, mkPayPalPayment, Payment.init_count, ih] <;>
      omega

/-- Claim C8: each credential setter rejects input failing its channel's format
rule by raising a `ValueError` (the `InvalidFormat` condition) — so the prior
stored credential survives unchanged — and commits conforming input as the new
stored credential, touching no other field. -/
theorem credential_setters_enforce_format (a : BankAccount) (number email : String) :
    (is_valid_card_format number = false →
      a.set_credit_card_number number = .error "Invalid credit card format")
    ∧ (is_valid_card_format number = true →
      a.set_credit_card_number number = .ok { a with credit_card_number := some number })
    ∧ (is_valid_email_format email = false →
      a.set_paypal_email email = .error "Invalid email format")
    ∧ (is_valid_email_format email = true →
      a.set_paypal_email email = .ok { a with paypal_email := some email }) := by
  refine ⟨?_, ?_, ?_, ?_⟩ <;> intro h <;>
    simp [BankAccount.set_credit_card_number, BankAccount.set_paypal_email, h]

/-- Witness for C8: a short card number and an at-less email are rejected on
`acctA`; a fresh 16-digit number and a well-formed email are committed. -/
theorem credential_setters_enforce_format_witness :
    acctA.set_credit_card_number "abc" = .error "Invalid credit card format"
    ∧ acctA.set_credit_card_number "9999888877776666"
        = .ok { acctA with credit_card_number := some "9999888877776666" }
    ∧ acctA.set_paypal_email "invalid" = .error "Invalid email format"
    ∧ acctA.set_paypal_email "new@mail.com"
        = .ok { acctA with paypal_email := some "new@mail.com" } := by
  have h := credential_setters_enforce_format acctA "abc" "invalid"
  have h2 := credential_setters_enforce_format acctA "9999888877776666" "new@mail.com"
  exact ⟨h.1 (by decide), h2.2.1 (by decide), h.2.2.1 (by decide), h2.2.2.2 (by decide)⟩

/-- Claim C10: `BankAccount.__init__` validates nothing — every argument tuple,
including a negative balance and format-violating credentials, is stored as
given (with an empty history); the non-negativity and format invariants live
only in the property setters, which do reject bad input. -/
theorem init_performs_no_validation :
    (∀ (i : String) (b : ℚ) (c e : Option String),
      (BankAccount.init i b c e).id = i
      ∧ (BankAccount.init i b c e).balance = b
      ∧ (BankAccount.init i b c e).credit_card_number = c
      ∧ (BankAccount.init i b c e).paypal_email = e
      ∧ (BankAccount.init i b c e).history = [])
    ∧ ((BankAccount.init "X" (-5) (some "abc") (some "invalid")).balance < 0
        ∧ is_valid_card_format "abc" = false
        ∧ is_valid_email_format "invalid" = false)
    ∧ (∀ (a : BankAccount) (v : ℚ), v < 0 →
        a.set_balance v = .error "balance cannot be negative")
    ∧ (∀ (a : BankAccount) (n : String), is_valid_card_format n = false →
        a.set_credit_card_number n = .error "Invalid credit card format")
    ∧ (∀ (a : BankAccount) (e : String), is_valid_email_format e = false →
        a.set_paypal_email e = .error "Invalid email format") := by
  refine ⟨fun i b c e => ⟨rfl, rfl, rfl, rfl, rfl⟩,
    ⟨by norm_num [BankAccount.init], by decide, by decide⟩, ?_, ?_, ?_⟩
  · intro a v hv
    simp [BankAccount.set_balance, hv]
  · intro a n hn
    simp [BankAccount.set_credit_card_number, hn]
  · intro a e he
    simp [BankAccount.set_paypal_email, he]

/-- Witness for C10: the invalid account is constructed with balance -5, while
the setters reject a negative balance, a short card number and a dot-less
email on `acctB`. -/
theorem init_performs_no_validation_witness :
    (BankAccount.init "X" (-5) (some "abc") (some "invalid")).balance = -5
    ∧ acctB.set_balance (-1) = .error "balance cannot be negative"
    ∧ acctB.set_credit_card_number "12" = .error "Invalid credit card format"
    ∧ acctB.set_paypal_email "nope" = .error "Invalid email format" := by
  have h := init_performs_no_validation
  exact ⟨(h.1 "X" (-5) (some "abc") (some "invalid")).2.1,
    h.2.2.1 acctB (-1) (by norm_num),
    h.2.2.2.1 acctB "12" (by decide),
    h.2.2.2.2 acctB "nope" (by decide)⟩

/-- One core operation of the subsystem: constructing an account, a transfer
between the accounts at two positions of the ledger state, or one of the three
property-setter assignments. Positions index the list of live account objects;
a transfer between equal positions is a call on one object with itself. -/
inductive Op where
  | construct (id : String) (balance : ℚ) (credit_card_number paypal_email : Option String)
  | transferOp (i : ℕ) (amount : ℚ) (j : ℕ)
  | setBalanceOp (i : ℕ) (v : ℚ)
  | setCardOp (i : ℕ) (n : String)
  | setEmailOp (i : ℕ) (e : String)
deriving DecidableEq, Repr

/-- Executes one operation on the list of live accounts. A setter that raises
(`ValueError`) leaves the state as it was; an operation naming a position with
no account is a no-op on the ledger state. -/
def step (s : List BankAccount) : Op → List BankAccount
  | .construct i b c e => s ++ [BankAccount.init i b c e]
  | .transferOp i a j =>
      match s[i]?, s[j]? with
      | some src, some dst =>
          if i = j then s
          else
            let r := src.transfer a dst
            (s.set i r.2.1).set j r.2.2
      | _, _ => s
  | .setBalanceOp i v =>
      match s[i]? with
      | some acc =>
          match acc.set_balance v with
          | .ok acc2 => s.set i acc2
          | .error _ => s
      | none => s
  | .setCardOp i n =>
      match s[i]? with
      | some acc =>
          match acc.set_credit_card_number n with
          | .ok acc2 => s.set i acc2
          | .error _ => s
      | none => s
  | .setEmailOp i e =>
      match s[i]? with
      | some acc =>
          match acc.set_paypal_email e with
          | .ok acc2 => s.set i acc2
          | .error _ => s
      | none => s

/-- Executes a sequence of operations from an initial ledger state. -/
def run (s : List BankAccount) (ops : List Op) : List BankAccount :=
  ops.foldl step s

/-- An operation that supplies only non-negative amounts where the code does
not check sign: construction balances and transfer amounts. Setter operations
are unrestricted — the setters check for themselves. -/
def Op.safe : Op → Bool
  | .construct _ b _ _ => decide (0 ≤ b)
  | .transferOp _ a _ => decide (0 ≤ a)
  | _ => true

/-- A successful `transfer` keeps both balances non-negative when the amount is
non-negative: the guard bounds the debit and the credit only adds. -/
theorem transfer_preserves_nonneg (s : BankAccount) (a : ℚ) (d : BankAccount)
    (hs : 0 ≤ s.balance) (hd : 0 ≤ d.balance) (ha : 0 ≤ a) :
    0 ≤ (s.transfer a d).2.1.balance ∧ 0 ≤ (s.transfer a d).2.2.balance := by
  unfold BankAccount.transfer
  split_ifs with h1 h2
  · exact ⟨hs, hd⟩
  · refine ⟨?_, ?_⟩ <;> simp <;> linarith [h2]
  · exact ⟨hs, hd⟩

/-- Witness for the transfer non-negativity lemma: the 200 transfer between the
sample accounts leaves both balances non-negative. -/
theorem transfer_preserves_nonneg_witness :
    0 ≤ (acctA.transfer 200 acctB).2.1.balance
    ∧ 0 ≤ (acctA.transfer 200 acctB).2.2.balance := by
  exact transfer_preserves_nonneg acctA 200 acctB (by norm_num [acctA, BankAccount.init])
    (by norm_num [acctB, BankAccount.init]) (by norm_num)

/-- One safe step preserves non-negativity of every live balance. -/
theorem step_preserves_nonneg (s : List BankAccount) (op : Op)
    (hs : ∀ a ∈ s, 0 ≤ a.balance) (hop : op.safe = true) :
    ∀ a ∈ step s op, 0 ≤ a.balance := by
  cases op with
  | construct i b c e =>
    intro x hx
    rcases List.mem_append.mp hx with h | h
    · exact hs x h
    · have hb : 0 ≤ b := of_decide_eq_true hop
      simp only [List.mem_singleton] at h
      subst h
      exact hb
  | transferOp i a j =>
    intro x hx
    have ha : 0 ≤ a := of_decide_eq_true hop
    simp only [step] at hx
    rcases hi : s[i]? with _ | src <;> rcases hj : s[j]? with _ | dst <;>
      simp only [hi, hj] at hx
    · exact hs x hx
    · exact hs x hx
    · exact hs x hx
    · by_cases hij : i = j
      · rw [if_pos hij] at hx
        exact hs x hx
      · rw [if_neg hij] at hx
        have hsrc : src ∈ s := by
          obtain ⟨hlt, rfl⟩ := List.getElem?_eq_some.mp hi
          exact List.getElem_mem hlt
        have hdst : dst ∈ s := by
          obtain ⟨hlt, rfl⟩ := List.getElem?_eq_some.mp hj
          exact List.getElem_mem hlt
        have hres := transfer_preserves_nonneg src a dst (hs src hsrc) (hs dst hdst) ha
        rcases List.mem_or_eq_of_mem_set hx with hx2 | hx2
        · rcases List.mem_or_eq_of_mem_set hx2 with hx3 | hx3
          · exact hs x hx3
          · subst hx3; exact hres.1
        · subst hx2; exact hres.2
  | setBalanceOp i v =>
    intro x hx
    simp only [step] at hx
    rcases hi : s[i]? with _ | acc <;> simp only [hi] at hx
    · exact hs x hx
    · by_cases hv : v < 0
      · simp only [show acc.set_balance v = .error "balance cannot be negative" from by
            simp [BankAccount.set_balance, hv]] at hx
        exact hs x hx
      · simp only [show acc.set_balance v = .ok { acc with balance := v } from by
            simp [BankAccount.set_balance, hv]] at hx
        rcases List.mem_or_eq_of_mem_set hx with hx2 | hx2
        · exact hs x hx2
        · subst hx2; exact le_of_not_lt hv
  | setCardOp i n =>
    intro x hx
    simp only [step] at hx
    rcases hi : s[i]? with _ | acc <;> simp only [hi] at hx
    · exact hs x hx
    · by_cases hn : is_valid_card_format n
      · simp only [show acc.set_credit_card_number n
              = .ok { acc with credit_card_number := some n } from by
            simp [BankAccount.set_credit_card_number, hn]] at hx
        rcases List.mem_or_eq_of_mem_set hx with hx2 | hx2
        · exact hs x hx2
        · subst hx2
          have hacc : acc ∈ s := by
            obtain ⟨hlt, rfl⟩ := List.getElem?_eq_some.mp hi
            exact List.getElem_mem hlt
          exact hs acc hacc
      · simp only [show acc.set_credit_card_number n
              = .error "Invalid credit card format" from by
            simp [BankAccount.set_credit_card_number, hn]] at hx
        exact hs x hx
  | setEmailOp i e =>
    intro x hx
    simp only [step] at hx
    rcases hi : s[i]? with _ | acc <;> simp only [hi] at hx
    · exact hs x hx
    · by_cases he : is_valid_email_format e
      · simp only [show acc.set_paypal_email e
              = .ok { acc with paypal_email := some e } from by
            simp [BankAccount.set_paypal_email, he]] at hx
        rcases List.mem_or_eq_of_mem_set hx with hx2 | hx2
        · exact hs x hx2
        · subst hx2
          have hacc : acc ∈ s := by
            obtain ⟨hlt, rfl⟩ := List.getElem?_eq_some.mp hi
            exact List.getElem_mem hlt
          exact hs acc hacc
      · simp only [show acc.set_paypal_email e = .error "Invalid email format" from by
            simp [BankAccount.set_paypal_email, he]] at hx
        exact hs x hx

/-- Counterexample for C2: the claim as stated fails twice. Constructing an
account with initial balance -1 ends the sequence with a negative balance,
and a -5 transfer between two accounts constructed at 0 drives the
destination's balance to -5. -/
theorem balances_nonneg_counterexample :
    ((run [] [Op.construct "A" (-1) none none]).map BankAccount.balance = [-1]
      ∧ (-1 : ℚ) < 0)
    ∧ ((run [BankAccount.init "A" 0, BankAccount.init "B" 0]
          [Op.transferOp 0 (-5) 1]).map BankAccount.balance = [5, -5]
      ∧ (-5 : ℚ) < 0
      ∧ (BankAccount.init "A" 0).balance = 0
      ∧ (BankAccount.init "B" 0).balance = 0) := by
  refine ⟨⟨?_, by norm_num⟩, ?_, by norm_num, rfl, rfl⟩
  · simp [run, step, BankAccount.init]
  · norm_num [run, step, BankAccount.init, BankAccount.transfer,
      show ("A" : String) ≠ "B" from by decide]

/-- Claim C2 (amended): if every live account starts with a non-negative
balance, every constructed account is given a non-negative initial balance and
every transfer amount is non-negative, then after any sequence of core
operations every account's balance is non-negative. (The original claim, with
no restriction on construction balances or transfer amounts, is refuted by
`balances_nonneg_counterexample`.) -/
theorem balances_nonneg_invariant (s₀ : List BankAccount) (ops : List Op)
    (h₀ : ∀ a ∈ s₀, 0 ≤ a.balance) (hops : ∀ op ∈ ops, op.safe = true) :
    ∀ a ∈ run s₀ ops, 0 ≤ a.balance := by
  induction ops generalizing s₀ with
  | nil => simpa [run] using h₀
  | cons op rest ih =>
    intro a ha
    have h1 := step_preserves_nonneg s₀ op h₀ (hops op (by simp))
    have h2 : ∀ o ∈ rest, o.safe = true := fun o ho => hops o (by simp [ho])
    exact ih (step s₀ op) h1 h2 a ha

/-- Witness for the amended C2: after constructing the two sample accounts and
running the 200 transfer, the updated source account is in the final state and
the theorem yields its balance is non-negative. -/
theorem balances_nonneg_invariant_witness :
    0 ≤ (BankAccount.mk "A001" 800 none none [HistEntry.sent 200 "A002"]).balance := by
  have h := balances_nonneg_invariant []
    [Op.construct "A001" 1000 none none, Op.construct "A002" 500 none none,
     Op.transferOp 0 200 1]
    (by simp) (by decide)
  apply h
  norm_num [run, step, BankAccount.init, BankAccount.transfer,
    show ("A001" : String) ≠ "A002" from by decide]
